import Mathlib

/-!
Shallow embedding of `python/lsst/ts/m1m3/thermalscanner_dde_tcpip/pin_point_daemon.py`
(the PinPoint thermal-scanner DDE-to-TCP/IP daemon).

Strings are modelled as `List Char` (`Str`).  Python's `str.split("\t")`,
`",".join(...)` and slicing `[:-1]` are embedded as executable Lean functions
mirroring the Python semantics.  The daemon's stateful loops are embedded as
step functions over an explicit state type, producing a trace of observable
events (driver requests, file writes, socket sends, sleeps) together with a
result that is either the next state or an uncaught Python exception.
External effects (the DDE driver's responses, the outcome of `socket.sendall`,
the outcome of `dde` `ConnectTo` calls) are inputs of the step functions.
-/

abbrev Str := List Char

/-- Python `s.split("\t")`: split on every single tab character; `"".split("\t") = [""]`,
and a trailing tab produces a trailing (possibly empty) field. -/
def splitTab : Str → List Str
  | [] => [[]]
  | c :: rest =>
    if c = '\t' then [] :: splitTab rest
    else
      match splitTab rest with
      | [] => [[c]]
      | f :: fs => (c :: f) :: fs

/-- Python `sep.join(xs)` for a list of strings. -/
def joinWith (sep : Str) : List Str → Str
  | [] => []
  | [x] => x
  | x :: y :: xs => x ++ sep ++ joinWith sep (y :: xs)

/-- Line 133: `self._pin_point.Request("Temperatures").split("\t")[:-1]` —
split the driver's "Temperatures" response on tabs and drop the last field
(Python slice `[:-1]` is `List.dropLast`). -/
def parseTemperatures (resp : Str) : List Str :=
  (splitTab resp).dropLast

/-- Python `bytes(s, "ascii")`: succeeds with the code points as bytes iff all
characters are < 128, otherwise raises `UnicodeEncodeError` (modelled as `none`). -/
def pyAsciiEncode (s : Str) : Option (List Nat) :=
  if s.all (fun c => c.toNat < 128) then some (s.map Char.toNat) else none

/-- Byte sequence of an ASCII string literal (for stating expected socket payloads). -/
def asciiBytes (s : String) : List Nat :=
  s.toList.map Char.toNat

/-- An uncaught Python exception propagating out of the modelled code. -/
inductive PyError
  | attributeError
  | unicodeEncodeError
  | connectionResetError (msg : Str)
  deriving DecidableEq

/-- The value held by `self._connection`.  `__init__` (line 80) executes
`self._connection = None | socket.socket`, which assigns the *value* of the
union-type expression (a `types.UnionType` object), not `None`; that value is
modelled as `unionTypeExpr`.  `pyNone` is Python `None` (set on disconnect,
line 151) and `sock` is an accepted client socket (set by `socket.accept`,
line 160). -/
inductive ConnSlot
  | pyNone
  | unionTypeExpr
  | sock
  deriving DecidableEq

/-- `self._connection is not None` — true for every value except Python `None`. -/
def connSlotIsNotNone : ConnSlot → Bool
  | ConnSlot.pyNone => false
  | _ => true

/-- Outcome of `self._connection.sendall(...)` on a real socket, chosen by the
environment.  When the peer has closed the connection, Winsock surfaces either
`ConnectionAbortedError` (WSAECONNABORTED) or `ConnectionResetError`
(WSAECONNRESET); line 144 catches only the former. -/
inductive SendOutcome
  | ok
  | connectionAborted (msg : Str)
  | connectionReset (msg : Str)
  deriving DecidableEq

/-- The daemon state the telemetry loop reads: whether `save_file` is
configured, the current `_connection` slot, and `scan_time` (stored by `run`
from `float(Request("Average Scan Interval"))`; modelled as an exact rational —
the claims only use the exact value 1.0 and no arithmetic is done on it). -/
structure DaemonState where
  saveConfigured : Bool
  connection : ConnSlot
  scanTime : ℚ
  deriving DecidableEq

/-- Observable events of one pass of the telemetry loop body (lines 132-153). -/
inductive Event
  | requestTemperatures
  | logDebugTemps (s : Str)
  | fileWrite (line : Str)
  | fileFlush
  | sockSend (bs : List Nat)
  | logClientClosed (msg : Str)
  | connClose
  | sleep (t : ℚ)
  deriving DecidableEq

/-- Result of one pass of the loop body: either the loop continues with the
next state, or an uncaught exception propagates out of `telemetry_task`. -/
inductive CycleResult
  | next (st : DaemonState)
  | raised (e : PyError)
  deriving DecidableEq

/-- One iteration of the `while True` body of `telemetry_task` (lines 132-153),
given the driver's `Request("Temperatures")` response and the environment's
choice of `sendall` outcome.  Mirrors the source line by line:
split/drop-last parse (133), debug log (134), optional file write + flush
(135-137), then — whenever `self._connection is not None` — an attribute
lookup of `.sendall` on the slot (an `AttributeError` if the slot still holds
the union-type object from `__init__`), evaluation of
`bytes(",".join(temperatures) + "\r\n", "ascii")`, the send itself with the
`except ConnectionAbortedError` handler (144-151), and the final
`asyncio.sleep(self.scan_time)` (153). -/
def telemetryCycle (st : DaemonState) (resp : Str) (outcome : SendOutcome) :
    List Event × CycleResult :=
  let temperatures := parseTemperatures resp
  let joined := joinWith [','] temperatures
  let baseEvents := [Event.requestTemperatures, Event.logDebugTemps joined]
      ++ (if st.saveConfigured then [Event.fileWrite (joined ++ ['\n']), Event.fileFlush] else [])
  match st.connection with
  | ConnSlot.pyNone =>
      (baseEvents ++ [Event.sleep st.scanTime], CycleResult.next st)
  | ConnSlot.unionTypeExpr =>
      (baseEvents, CycleResult.raised PyError.attributeError)
  | ConnSlot.sock =>
      match pyAsciiEncode (joined ++ ['\r', '\n']) with
      | none => (baseEvents, CycleResult.raised PyError.unicodeEncodeError)
      | some bs =>
          match outcome with
          | SendOutcome.ok =>
              (baseEvents ++ [Event.sockSend bs, Event.sleep st.scanTime],
               CycleResult.next st)
          | SendOutcome.connectionAborted msg =>
              (baseEvents ++ [Event.sockSend bs, Event.logClientClosed msg,
                              Event.connClose, Event.sleep st.scanTime],
               CycleResult.next { st with connection := ConnSlot.pyNone })
          | SendOutcome.connectionReset msg =>
              (baseEvents ++ [Event.sockSend bs],
               CycleResult.raised (PyError.connectionResetError msg))

/-- Run the telemetry loop over a finite list of per-cycle environment inputs
(driver response, send outcome), accumulating the event trace; stops early if
an exception propagates. -/
def runTelemetry (st : DaemonState) : List (Str × SendOutcome) → List Event × CycleResult
  | [] => ([], CycleResult.next st)
  | (resp, oc) :: rest =>
    match telemetryCycle st resp oc with
    | (evs, CycleResult.next st1) =>
        match runTelemetry st1 rest with
        | (evs1, r) => (evs ++ evs1, r)
    | (evs, CycleResult.raised e) => (evs, CycleResult.raised e)

/-- The socket payloads sent to the client, in order, in a trace. -/
def sentPayloads (evs : List Event) : List (List Nat) :=
  evs.filterMap fun e =>
    match e with
    | Event.sockSend bs => some bs
    | _ => none

def isFileWriteEv : Event → Bool
  | Event.fileWrite _ => true
  | _ => false

def isFileFlushEv : Event → Bool
  | Event.fileFlush => true
  | _ => false

def isSendEv : Event → Bool
  | Event.sockSend _ => true
  | _ => false

/-- Index of the first event satisfying `p` in a trace, if any. -/
def firstEventIdx (p : Event → Bool) : List Event → Option Nat
  | [] => none
  | e :: es => if p e then some 0 else (firstEventIdx p es).map (· + 1)

/-- The inner wait of `listen_task` (lines 164-165): the accept loop re-enters
`socket.accept` exactly when `while self._connection is not None` exits,
i.e. when the slot holds Python `None`. -/
def acceptReady (slot : ConnSlot) : Bool :=
  !(connSlotIsNotNone slot)

/-- Whether a client is currently connected (an accepted socket is held). -/
def clientConnected : ConnSlot → Bool
  | ConnSlot.sock => true
  | _ => false

/-- Outcome of a `dde` call (`ConnectTo`), chosen by the environment: success,
or an exception whose `str(ex)` is `msg`. -/
inductive ConnectResult
  | ok
  | err (msg : Str)
  deriving DecidableEq

/-- Environment of `PinPointDaemon.connect` (lines 83-107): the outcome of
`ConnectTo("PPMonitor", "System")`, the `Request("Topics")` response, and the
outcome of `ConnectTo("PPMonitor", topic)` for each topic. -/
structure DdeEnv where
  systemConnect : ConnectResult
  topicsResponse : Str
  topicConnect : Str → ConnectResult

/-- Message of the `RuntimeError` raised at line 105:
`f"Cannot connect to {system}: {str(ex)}"`. -/
def cannotConnectMsg (system ex : Str) : Str :=
  ("Cannot connect to ").toList ++ system ++ (": ").toList ++ ex

/-- The topic `connect` attempts: the configured `ppmonitor_topic` if any,
else `Request("Topics").split("\t")[0]` (discovery, lines 86-97). -/
def attemptedTopic (ppmonitorTopic : Option Str) (env : DdeEnv) : Str :=
  match ppmonitorTopic with
  | some t => t
  | none => ((splitTab env.topicsResponse).headD [])

/-- `PinPointDaemon.connect` (lines 83-107): in discovery mode connect to the
System topic, split the Topics response on tabs and take entry 0; then connect
to the chosen topic, wrapping a failure in the `RuntimeError` of line 105.
Returns the connected topic or the message of the raised exception. -/
def ppConnect (ppmonitorTopic : Option Str) (env : DdeEnv) : Except Str Str :=
  match ppmonitorTopic with
  | none =>
    match env.systemConnect with
    | ConnectResult.err e => Except.error e
    | ConnectResult.ok =>
      let system := (splitTab env.topicsResponse).headD []
      match env.topicConnect system with
      | ConnectResult.ok => Except.ok system
      | ConnectResult.err ex => Except.error (cannotConnectMsg system ex)
  | some system =>
    match env.topicConnect system with
    | ConnectResult.ok => Except.ok system
    | ConnectResult.err ex => Except.error (cannotConnectMsg system ex)

/-- Observable events of the connect-with-fallback phase of `run`
(lines 109-127). -/
inductive StartEvent
  | connectAttempt
  | launchDriver (exe : Str)
  | sleepSeconds (n : Nat)
  | readScanInterval
  deriving DecidableEq

/-- Outcome of the startup phase: the daemon reaches the running state
(`asyncio.gather` of the two loops), or an uncaught exception terminates the
process with a non-zero exit status, carrying `str` of the exception. -/
inductive StartOutcome
  | running
  | fatalError (msg : Str)
  deriving DecidableEq

/-- Message of the `RuntimeError` raised at lines 114-117 when
`self.ppmonitor_exe == ""`. -/
def noExeMsg (ex : Str) : Str :=
  ("PPMonitor is not running and path to its binary was not provided, exiting."
    ++ "The error was: ").toList ++ ex

def isConnectAttemptEv : StartEvent → Bool
  | StartEvent.connectAttempt => true
  | _ => false

/-- The startup phase of `PinPointDaemon.run` (lines 109-125): try `connect`;
on an exception, either raise the fatal `RuntimeError` when no executable path
is configured (`ppmonitor_exe == ""`), or `subprocess.Popen` the executable,
`asyncio.sleep(5)`, and retry `connect` exactly once, a second failure
propagating.  On success the scan interval is read and the daemon runs.
`first`/`second` are the outcomes of the two possible `connect` invocations
(`err msg` abstracts any exception with `str(ex) = msg`). -/
def ppRun (exe : Str) (first second : ConnectResult) : List StartEvent × StartOutcome :=
  match first with
  | ConnectResult.ok =>
      ([StartEvent.connectAttempt, StartEvent.readScanInterval], StartOutcome.running)
  | ConnectResult.err ex =>
    if exe = [] then
      ([StartEvent.connectAttempt], StartOutcome.fatalError (noExeMsg ex))
    else
      match second with
      | ConnectResult.ok =>
          ([StartEvent.connectAttempt, StartEvent.launchDriver exe,
            StartEvent.sleepSeconds 5, StartEvent.connectAttempt,
            StartEvent.readScanInterval],
           StartOutcome.running)
      | ConnectResult.err e2 =>
          ([StartEvent.connectAttempt, StartEvent.launchDriver exe,
            StartEvent.sleepSeconds 5, StartEvent.connectAttempt],
           StartOutcome.fatalError e2)

/-- Result of `run_pin_point_daemon`'s validation of the parsed arguments
(lines 212-231): either `sys.exit(1)` before any `PinPointDaemon` is
constructed, or construction of the daemon with the effective topic. -/
inductive StartupResult
  | exited (code : Nat)
  | daemonCreated (ppmonitorTopic : Option Str)
  deriving DecidableEq

/-- Lines 214-230: `if args.discover is True: ppmonitor_topic = None` else
require `args.ppmonitor_topic`, exiting with code 1 when it is missing; only
then is the `PinPointDaemon` constructed. -/
def startupValidate (discover : Bool) (ppmonitorTopic : Option Str) : StartupResult :=
  if discover = true then
    StartupResult.daemonCreated none
  else
    match ppmonitorTopic with
    | none => StartupResult.exited 1
    | some t => StartupResult.daemonCreated (some t)

/-- State of the C1 scenario: a client is connected, no file sink, and the
driver reported a scan interval of 1.0 seconds. -/
def c1State : DaemonState :=
  { saveConfigured := false, connection := ConnSlot.sock, scanTime := 1 }

/-- Environment of the C1 scenario: three consecutive "Temperatures" polls,
all sends succeeding. -/
def c1Inputs : List (Str × SendOutcome) :=
  [(("10.1\t20.2\t\n").toList, SendOutcome.ok),
   (("10.3\t20.1\t\n").toList, SendOutcome.ok),
   (("10.0\t20.0\t\n").toList, SendOutcome.ok)]

/-- A concrete DDE environment for exercising `ppConnect`: the System topic
connect succeeds, topics are "GE01\tGE02\n", and connecting to GE01 succeeds
while every other topic is refused. -/
def ddeEnvOk : DdeEnv :=
  { systemConnect := ConnectResult.ok
    topicsResponse := ("GE01\tGE02\n").toList
    topicConnect := fun t =>
      if t = ("GE01").toList then ConnectResult.ok
      else ConnectResult.err (("connection refused").toList) }

/-- A concrete DDE environment where every topic-specific connect fails. -/
def ddeEnvRefuse : DdeEnv :=
  { systemConnect := ConnectResult.ok
    topicsResponse := ("GE01\tGE02\n").toList
    topicConnect := fun _ => ConnectResult.err (("DDE server busy").toList) }

theorem splitTab_ne_nil (s : Str) : splitTab s ≠ [] := by
  induction s with
  | nil => simp [splitTab]
  | cons c rest ih =>
    simp only [splitTab]
    split
    · simp
    · match h : splitTab rest with
      | [] => simp
      | f :: fs => simp

theorem splitTab_no_tab {s : Str} (h : '\t' ∉ s) : splitTab s = [s] := by
  induction s with
  | nil => rfl
  | cons c rest ih =>
    have hc : ¬ c = '\t' := fun hc => h (hc ▸ List.mem_cons_self c rest)
    have hrest : '\t' ∉ rest := fun hm => h (List.mem_cons_of_mem c hm)
    simp only [splitTab, if_neg hc, ih hrest]

theorem splitTab_append_tab {s : Str} (t : Str) (h : '\t' ∉ s) :
    splitTab (s ++ '\t' :: t) = s :: splitTab t := by
  induction s with
  | nil => simp [splitTab]
  | cons c rest ih =>
    have hc : ¬ c = '\t' := fun hc => h (hc ▸ List.mem_cons_self c rest)
    have hrest : '\t' ∉ rest := fun hm => h (List.mem_cons_of_mem c hm)
    simp only [List.cons_append, splitTab, if_neg hc, List.append_eq, ih hrest]

theorem splitTab_joinWith {xs : List Str} (hne : xs ≠ [])
    (h : ∀ s ∈ xs, '\t' ∉ s) : splitTab (joinWith ['\t'] xs) = xs := by
  induction xs with
  | nil => exact absurd rfl hne
  | cons x xs ih =>
    match xs with
    | [] =>
      exact splitTab_no_tab (h x (List.mem_cons_self x []))
    | y :: ys =>
      have hx : '\t' ∉ x := h x (List.mem_cons_self x (y :: ys))
      have hrest : ∀ s ∈ y :: ys, '\t' ∉ s :=
        fun s hs => h s (List.mem_cons_of_mem x hs)
      have : joinWith ['\t'] (x :: y :: ys) = x ++ '\t' :: joinWith ['\t'] (y :: ys) := by
        simp [joinWith]
      rw [this, splitTab_append_tab _ hx, ih (by simp) hrest]

theorem joinWith_concat (sep t : Str) : ∀ (xs : List Str), xs ≠ [] →
    joinWith sep (xs ++ [t]) = joinWith sep xs ++ sep ++ t
  | [], h => absurd rfl h
  | [x], _ => by simp [joinWith]
  | x :: y :: ys, _ => by
      have h2 := joinWith_concat sep t (y :: ys) (by simp)
      simp only [List.cons_append] at h2 ⊢
      simp only [joinWith]
      rw [h2]
      simp [List.append_assoc]

/-- C4: for every well-formed "Temperatures" response — readings separated and
terminated by tab delimiters, so that splitting on tabs yields the readings
followed by the one trailing field after the final delimiter — the parse of
line 133 yields exactly the readings, with the trailing field dropped and
field order preserved. -/
theorem c4_wellformed_temperatures_parse :
    ∀ (readings : List Str) (trailing : Str), readings ≠ [] →
      (∀ r ∈ readings, '\t' ∉ r) → '\t' ∉ trailing →
      parseTemperatures (joinWith ['\t'] readings ++ '\t' :: trailing) = readings := by
  intro readings trailing hne hr ht
  have hform : joinWith ['\t'] readings ++ '\t' :: trailing
      = joinWith ['\t'] (readings ++ [trailing]) := by
    rw [joinWith_concat ['\t'] trailing readings hne]
    simp
  have hall : ∀ s ∈ readings ++ [trailing], '\t' ∉ s := by
    intro s hs
    rcases List.mem_append.mp hs with h | h
    · exact hr s h
    · simp only [List.mem_singleton] at h
      exact h ▸ ht
  rw [hform, parseTemperatures, splitTab_joinWith (by simp) hall]
  simp

theorem c4_witness :
    parseTemperatures
        (joinWith ['\t'] [("21.5").toList, ("22.5").toList] ++ '\t' :: ("\n").toList)
      = [("21.5").toList, ("22.5").toList] :=
  c4_wellformed_temperatures_parse _ _ (by decide) (by decide) (by decide)

/-- C10: the parse of line 133 drops the last element of the tab-split result
unconditionally, so for a response without the terminating tab delimiter the
final actual reading is silently discarded; in particular "10.1\t20.2" parses
to just ["10.1"]. -/
theorem c10_unterminated_response_drops_reading :
    (∀ readings : List Str, readings ≠ [] → (∀ r ∈ readings, '\t' ∉ r) →
       parseTemperatures (joinWith ['\t'] readings) = readings.dropLast)
    ∧ parseTemperatures (("10.1\t20.2").toList) = [("10.1").toList] := by
  constructor
  · intro readings hne hr
    rw [parseTemperatures, splitTab_joinWith hne hr]
  · decide

theorem c10_witness :
    parseTemperatures (joinWith ['\t'] [("5.5").toList, ("6.6").toList])
      = ([("5.5").toList, ("6.6").toList] : List Str).dropLast :=
  c10_unterminated_response_drops_reading.1 _ (by decide) (by decide)

/-- C1: while a client is connected, each telemetry cycle sends exactly the
driver's "Temperatures" response split on tabs with the last field dropped,
joined by commas, terminated by CRLF and ASCII-encoded, then sleeps for the
driver-reported scan interval; in the three-poll scenario with scan interval
1.0 the client receives exactly "10.1,20.2\r\n", "10.3,20.1\r\n",
"10.0,20.0\r\n" in that order. -/
theorem c1_connected_stream_format :
    (∀ (st : DaemonState) (resp : Str) (bs : List Nat),
        st.connection = ConnSlot.sock →
        pyAsciiEncode (joinWith [','] (parseTemperatures resp) ++ ['\r', '\n']) = some bs →
        (telemetryCycle st resp SendOutcome.ok).1
          = [Event.requestTemperatures,
             Event.logDebugTemps (joinWith [','] (parseTemperatures resp))]
            ++ (if st.saveConfigured then
                  [Event.fileWrite (joinWith [','] (parseTemperatures resp) ++ ['\n']),
                   Event.fileFlush]
                else [])
            ++ [Event.sockSend bs, Event.sleep st.scanTime]
        ∧ (telemetryCycle st resp SendOutcome.ok).2 = CycleResult.next st)
    ∧ (runTelemetry c1State c1Inputs).1
        = [Event.requestTemperatures, Event.logDebugTemps (("10.1,20.2").toList),
           Event.sockSend (asciiBytes "10.1,20.2\r\n"), Event.sleep 1,
           Event.requestTemperatures, Event.logDebugTemps (("10.3,20.1").toList),
           Event.sockSend (asciiBytes "10.3,20.1\r\n"), Event.sleep 1,
           Event.requestTemperatures, Event.logDebugTemps (("10.0,20.0").toList),
           Event.sockSend (asciiBytes "10.0,20.0\r\n"), Event.sleep 1]
    ∧ sentPayloads (runTelemetry c1State c1Inputs).1
        = [asciiBytes "10.1,20.2\r\n", asciiBytes "10.3,20.1\r\n",
           asciiBytes "10.0,20.0\r\n"] := by
  refine ⟨?_, by decide, by decide⟩
  intro st resp bs hconn henc
  obtain ⟨save, conn, t⟩ := st
  simp only at hconn
  subst hconn
  simp [telemetryCycle, henc]

theorem c1_witness :
    (telemetryCycle { saveConfigured := true, connection := ConnSlot.sock, scanTime := 2 }
        (("1.5\t2.5\t\n").toList) SendOutcome.ok).1
      = [Event.requestTemperatures,
         Event.logDebugTemps (joinWith [','] (parseTemperatures (("1.5\t2.5\t\n").toList)))]
        ++ (if ({ saveConfigured := true, connection := ConnSlot.sock,
                  scanTime := 2 } : DaemonState).saveConfigured then
              [Event.fileWrite
                 (joinWith [','] (parseTemperatures (("1.5\t2.5\t\n").toList)) ++ ['\n']),
               Event.fileFlush]
            else [])
        ++ [Event.sockSend (asciiBytes "1.5,2.5\r\n"),
            Event.sleep ({ saveConfigured := true, connection := ConnSlot.sock,
                           scanTime := 2 } : DaemonState).scanTime]
    ∧ (telemetryCycle { saveConfigured := true, connection := ConnSlot.sock, scanTime := 2 }
        (("1.5\t2.5\t\n").toList) SendOutcome.ok).2
      = CycleResult.next { saveConfigured := true, connection := ConnSlot.sock, scanTime := 2 } :=
  c1_connected_stream_format.1 _ _ _ rfl (by decide)

/-- C2: refuted on the code as written — `__init__` (line 80) executes
`self._connection = None | socket.socket`, leaving the slot holding the value
of the union-type expression, which `is not None`; so in the initial state,
where no client has ever connected, the first telemetry cycle takes the send
branch and raises `AttributeError` instead of proceeding quietly to the next
poll. -/
theorem c2_initial_state_cycle_raises :
    clientConnected ConnSlot.unionTypeExpr = false
    ∧ connSlotIsNotNone ConnSlot.unionTypeExpr = true
    ∧ (telemetryCycle
          { saveConfigured := true, connection := ConnSlot.unionTypeExpr, scanTime := 1 }
          (("10.1\t20.2\t\n").toList) SendOutcome.ok).2
        = CycleResult.raised PyError.attributeError := by decide

/-- C3 counterexample: a send failure caused by the peer closing the
connection that surfaces as `ConnectionResetError` is not recovered — the
telemetry cycle raises, and no connection-close/slot-clear happens — refuting
the claim that the recovery covers any send failure caused by the peer
closing the connection (line 144 catches only `ConnectionAbortedError`). -/
theorem c3_counterexample_reset_not_recovered :
    (telemetryCycle { saveConfigured := false, connection := ConnSlot.sock, scanTime := 1 }
        (("10.1\t20.2\t\n").toList)
        (SendOutcome.connectionReset (("reset by peer").toList))).2
      = CycleResult.raised (PyError.connectionResetError (("reset by peer").toList))
    ∧ Event.connClose ∉
        (telemetryCycle { saveConfigured := false, connection := ConnSlot.sock, scanTime := 1 }
          (("10.1\t20.2\t\n").toList)
          (SendOutcome.connectionReset (("reset by peer").toList))).1 := by decide

/-- C3 (amended): when the send to a peer-closed connection fails with
`ConnectionAbortedError` — the one exception type the handler at line 144
catches — the failure is logged, the connection is closed and the slot set to
`None`, the cycle completes with its sleep and the loop continues to the next
cycle, and the accept loop's wait condition then lets `listen_task` accept a
new connection without restarting the daemon. -/
theorem c3_amended_abort_recovery :
    ∀ (st : DaemonState) (resp msg : Str) (bs : List Nat),
      st.connection = ConnSlot.sock →
      pyAsciiEncode (joinWith [','] (parseTemperatures resp) ++ ['\r', '\n']) = some bs →
      (telemetryCycle st resp (SendOutcome.connectionAborted msg)).1
        = [Event.requestTemperatures,
           Event.logDebugTemps (joinWith [','] (parseTemperatures resp))]
          ++ (if st.saveConfigured then
                [Event.fileWrite (joinWith [','] (parseTemperatures resp) ++ ['\n']),
                 Event.fileFlush]
              else [])
          ++ [Event.sockSend bs, Event.logClientClosed msg, Event.connClose,
              Event.sleep st.scanTime]
      ∧ (telemetryCycle st resp (SendOutcome.connectionAborted msg)).2
          = CycleResult.next { st with connection := ConnSlot.pyNone }
      ∧ acceptReady ({ st with connection := ConnSlot.pyNone } : DaemonState).connection
          = true := by
  intro st resp msg bs hconn henc
  obtain ⟨save, conn, t⟩ := st
  simp only at hconn
  subst hconn
  simp [telemetryCycle, henc, acceptReady, connSlotIsNotNone]

theorem c3_amended_witness :
    (telemetryCycle { saveConfigured := false, connection := ConnSlot.sock, scanTime := 3 }
        (("7.0\t8.0\t\n").toList) (SendOutcome.connectionAborted (("aborted").toList))).1
      = [Event.requestTemperatures,
         Event.logDebugTemps (joinWith [','] (parseTemperatures (("7.0\t8.0\t\n").toList)))]
        ++ (if ({ saveConfigured := false, connection := ConnSlot.sock,
                  scanTime := 3 } : DaemonState).saveConfigured then
              [Event.fileWrite
                 (joinWith [','] (parseTemperatures (("7.0\t8.0\t\n").toList)) ++ ['\n']),
               Event.fileFlush]
            else [])
        ++ [Event.sockSend (asciiBytes "7.0,8.0\r\n"),
            Event.logClientClosed (("aborted").toList), Event.connClose,
            Event.sleep ({ saveConfigured := false, connection := ConnSlot.sock,
                           scanTime := 3 } : DaemonState).scanTime]
    ∧ (telemetryCycle { saveConfigured := false, connection := ConnSlot.sock, scanTime := 3 }
        (("7.0\t8.0\t\n").toList) (SendOutcome.connectionAborted (("aborted").toList))).2
      = CycleResult.next
          { ({ saveConfigured := false, connection := ConnSlot.sock,
               scanTime := 3 } : DaemonState) with connection := ConnSlot.pyNone }
    ∧ acceptReady
        ({ ({ saveConfigured := false, connection := ConnSlot.sock,
              scanTime := 3 } : DaemonState) with
           connection := ConnSlot.pyNone } : DaemonState).connection = true :=
  c3_amended_abort_recovery _ _ _ _ rfl (by decide)

/-- C5: when the initial driver connect fails, with no launcher executable
path configured (`ppmonitor_exe == ""`) the daemon raises a fatal startup
error whose message includes the underlying cause; otherwise it launches the
driver executable, waits exactly 5 seconds, and retries the connect exactly
once — a successful retry reaches the running state, and a second failure
propagates fatally with no further connect attempts. -/
theorem c5_connect_fallback :
    (∀ (ex : Str) (second : ConnectResult),
        ppRun [] (ConnectResult.err ex) second
          = ([StartEvent.connectAttempt], StartOutcome.fatalError (noExeMsg ex))
        ∧ ex <:+ noExeMsg ex)
    ∧ (∀ (exe ex : Str), exe ≠ [] →
        ppRun exe (ConnectResult.err ex) ConnectResult.ok
          = ([StartEvent.connectAttempt, StartEvent.launchDriver exe,
              StartEvent.sleepSeconds 5, StartEvent.connectAttempt,
              StartEvent.readScanInterval], StartOutcome.running))
    ∧ (∀ (exe ex e2 : Str), exe ≠ [] →
        ppRun exe (ConnectResult.err ex) (ConnectResult.err e2)
          = ([StartEvent.connectAttempt, StartEvent.launchDriver exe,
              StartEvent.sleepSeconds 5, StartEvent.connectAttempt],
             StartOutcome.fatalError e2)
        ∧ (ppRun exe (ConnectResult.err ex) (ConnectResult.err e2)).1.countP
              isConnectAttemptEv = 2) := by
  refine ⟨?_, ?_, ?_⟩
  · intro ex second
    exact ⟨rfl, List.suffix_append _ _⟩
  · intro exe ex hne
    simp [ppRun, hne]
  · intro exe ex e2 hne
    refine ⟨by simp [ppRun, hne], ?_⟩
    simp [ppRun, hne, List.countP_cons, isConnectAttemptEv]

theorem c5_witness :
    (ppRun [] (ConnectResult.err (("no conv").toList)) ConnectResult.ok
        = ([StartEvent.connectAttempt],
           StartOutcome.fatalError (noExeMsg (("no conv").toList)))
      ∧ (("no conv").toList) <:+ noExeMsg (("no conv").toList))
    ∧ ppRun (("PPMonitor.exe").toList) (ConnectResult.err (("no conv").toList))
          ConnectResult.ok
        = ([StartEvent.connectAttempt, StartEvent.launchDriver (("PPMonitor.exe").toList),
            StartEvent.sleepSeconds 5, StartEvent.connectAttempt,
            StartEvent.readScanInterval], StartOutcome.running)
    ∧ (ppRun (("PPMonitor.exe").toList) (ConnectResult.err (("no conv").toList))
          (ConnectResult.err (("still down").toList))
        = ([StartEvent.connectAttempt, StartEvent.launchDriver (("PPMonitor.exe").toList),
            StartEvent.sleepSeconds 5, StartEvent.connectAttempt],
           StartOutcome.fatalError (("still down").toList))
      ∧ (ppRun (("PPMonitor.exe").toList) (ConnectResult.err (("no conv").toList))
            (ConnectResult.err (("still down").toList))).1.countP isConnectAttemptEv = 2) :=
  ⟨c5_connect_fallback.1 _ _,
   c5_connect_fallback.2.1 _ _ (by decide),
   c5_connect_fallback.2.2 _ _ _ (by decide)⟩

/-- C6: with no configured topic, `connect` queries the System topic for the
tab-separated topics list and connects to its first entry — for
"GE01\tGE02\n" that is GE01 — and whenever the topic-specific connect fails,
the surfaced error message carries the attempted topic name and the
underlying cause message. -/
theorem c6_discovery_and_link_error :
    (∀ env : DdeEnv, env.systemConnect = ConnectResult.ok →
        env.topicsResponse = ("GE01\tGE02\n").toList →
        env.topicConnect (("GE01").toList) = ConnectResult.ok →
        ppConnect none env = Except.ok (("GE01").toList))
    ∧ (∀ (topicCfg : Option Str) (env : DdeEnv) (ex : Str),
        env.systemConnect = ConnectResult.ok →
        env.topicConnect (attemptedTopic topicCfg env) = ConnectResult.err ex →
        ppConnect topicCfg env
          = Except.error (cannotConnectMsg (attemptedTopic topicCfg env) ex)
        ∧ attemptedTopic topicCfg env
            <:+: cannotConnectMsg (attemptedTopic topicCfg env) ex
        ∧ ex <:+ cannotConnectMsg (attemptedTopic topicCfg env) ex) := by
  constructor
  · intro env h1 h2 h3
    have hhead : ((splitTab env.topicsResponse).headD [] : Str) = ("GE01").toList := by
      rw [h2]; decide
    simp only [ppConnect, h1, hhead, h3]
  · intro topicCfg env ex h1 h2
    refine ⟨?_, ?_, ?_⟩
    · cases topicCfg with
      | none =>
        simp only [attemptedTopic] at h2 ⊢
        simp only [ppConnect, h1, h2]
      | some t =>
        simp only [attemptedTopic] at h2 ⊢
        simp only [ppConnect, h2]
    · exact ⟨("Cannot connect to ").toList, (": ").toList ++ ex,
        by simp [cannotConnectMsg, List.append_assoc]⟩
    · exact ⟨("Cannot connect to ").toList ++ attemptedTopic topicCfg env ++ (": ").toList,
        by simp [cannotConnectMsg, List.append_assoc]⟩

theorem c6_witness :
    ppConnect none ddeEnvOk = Except.ok (("GE01").toList)
    ∧ (ppConnect (some (("GE05").toList)) ddeEnvRefuse
        = Except.error
            (cannotConnectMsg (attemptedTopic (some (("GE05").toList)) ddeEnvRefuse)
              (("DDE server busy").toList))
      ∧ attemptedTopic (some (("GE05").toList)) ddeEnvRefuse
          <:+: cannotConnectMsg (attemptedTopic (some (("GE05").toList)) ddeEnvRefuse)
                (("DDE server busy").toList)
      ∧ (("DDE server busy").toList)
          <:+ cannotConnectMsg (attemptedTopic (some (("GE05").toList)) ddeEnvRefuse)
                (("DDE server busy").toList)) :=
  ⟨c6_discovery_and_link_error.1 ddeEnvOk rfl rfl (by decide),
   c6_discovery_and_link_error.2 (some (("GE05").toList)) ddeEnvRefuse
     (("DDE server busy").toList) rfl rfl⟩

/-- C7: in every telemetry cycle with the file sink configured, the file
append sits at trace index 2 and its flush at index 3, and no send occurs
among the first four events — so in no cycle does the send precede the
append; moreover, with a client connected and an encodable payload, the
single socket send sits at index 4, after the single append and its flush. -/
theorem c7_append_before_send :
    (∀ (st : DaemonState) (resp : Str) (oc : SendOutcome),
        st.saveConfigured = true →
        firstEventIdx isFileWriteEv (telemetryCycle st resp oc).1 = some 2
        ∧ firstEventIdx isFileFlushEv (telemetryCycle st resp oc).1 = some 3
        ∧ ((telemetryCycle st resp oc).1.take 4).all (fun e => !(isSendEv e)) = true)
    ∧ (∀ (st : DaemonState) (resp : Str) (oc : SendOutcome) (bs : List Nat),
        st.saveConfigured = true → st.connection = ConnSlot.sock →
        pyAsciiEncode (joinWith [','] (parseTemperatures resp) ++ ['\r', '\n']) = some bs →
        firstEventIdx isSendEv (telemetryCycle st resp oc).1 = some 4
        ∧ (telemetryCycle st resp oc).1.countP isFileWriteEv = 1
        ∧ (telemetryCycle st resp oc).1.countP isSendEv = 1) := by
  constructor
  · intro st resp oc hsave
    obtain ⟨save, conn, t⟩ := st
    simp only at hsave
    subst hsave
    cases conn with
    | pyNone =>
        cases oc <;>
          simp [telemetryCycle, firstEventIdx, isFileWriteEv, isFileFlushEv, isSendEv]
    | unionTypeExpr =>
        cases oc <;>
          simp [telemetryCycle, firstEventIdx, isFileWriteEv, isFileFlushEv, isSendEv]
    | sock =>
        cases henc : pyAsciiEncode (joinWith [','] (parseTemperatures resp) ++ ['\r', '\n']) with
        | none =>
            cases oc <;>
              simp [telemetryCycle, henc, firstEventIdx, isFileWriteEv, isFileFlushEv, isSendEv]
        | some bs =>
            cases oc <;>
              simp [telemetryCycle, henc, firstEventIdx, isFileWriteEv, isFileFlushEv, isSendEv]
  · intro st resp oc bs hsave hconn henc
    obtain ⟨save, conn, t⟩ := st
    simp only at hsave hconn
    subst hsave
    subst hconn
    cases oc <;>
      simp [telemetryCycle, henc, firstEventIdx, isFileWriteEv, isFileFlushEv, isSendEv,
            List.countP_cons]

theorem c7_witness :
    (firstEventIdx isFileWriteEv
        (telemetryCycle { saveConfigured := true, connection := ConnSlot.sock, scanTime := 1 }
          (("3.5\t4.5\t\n").toList) SendOutcome.ok).1 = some 2
      ∧ firstEventIdx isFileFlushEv
          (telemetryCycle { saveConfigured := true, connection := ConnSlot.sock, scanTime := 1 }
            (("3.5\t4.5\t\n").toList) SendOutcome.ok).1 = some 3
      ∧ ((telemetryCycle { saveConfigured := true, connection := ConnSlot.sock, scanTime := 1 }
            (("3.5\t4.5\t\n").toList) SendOutcome.ok).1.take 4).all
            (fun e => !(isSendEv e)) = true)
    ∧ (firstEventIdx isSendEv
          (telemetryCycle { saveConfigured := true, connection := ConnSlot.sock, scanTime := 1 }
            (("3.5\t4.5\t\n").toList) SendOutcome.ok).1 = some 4
      ∧ (telemetryCycle { saveConfigured := true, connection := ConnSlot.sock, scanTime := 1 }
            (("3.5\t4.5\t\n").toList) SendOutcome.ok).1.countP isFileWriteEv = 1
      ∧ (telemetryCycle { saveConfigured := true, connection := ConnSlot.sock, scanTime := 1 }
            (("3.5\t4.5\t\n").toList) SendOutcome.ok).1.countP isSendEv = 1) :=
  ⟨c7_append_before_send.1 _ _ SendOutcome.ok rfl,
   c7_append_before_send.2 _ _ _ (asciiBytes "3.5,4.5\r\n") rfl rfl (by decide)⟩

/-- C8: whenever the file sink is configured, every telemetry cycle appends
exactly one line — the comma-joined values plus a newline terminator — at
trace index 2, immediately flushed at index 3, regardless of the connection
slot and regardless of the send outcome. -/
theorem c8_file_sink_exactly_one_line :
    ∀ (st : DaemonState) (resp : Str) (oc : SendOutcome),
      st.saveConfigured = true →
      (telemetryCycle st resp oc).1.countP isFileWriteEv = 1
      ∧ (telemetryCycle st resp oc).1.get? 2
          = some (Event.fileWrite (joinWith [','] (parseTemperatures resp) ++ ['\n']))
      ∧ (telemetryCycle st resp oc).1.get? 3 = some Event.fileFlush := by
  intro st resp oc hsave
  obtain ⟨save, conn, t⟩ := st
  simp only at hsave
  subst hsave
  cases conn with
  | pyNone =>
      cases oc <;> simp [telemetryCycle, List.countP_cons, isFileWriteEv]
  | unionTypeExpr =>
      cases oc <;> simp [telemetryCycle, List.countP_cons, isFileWriteEv]
  | sock =>
      cases henc : pyAsciiEncode (joinWith [','] (parseTemperatures resp) ++ ['\r', '\n']) with
      | none => cases oc <;> simp [telemetryCycle, henc, List.countP_cons, isFileWriteEv]
      | some bs => cases oc <;> simp [telemetryCycle, henc, List.countP_cons, isFileWriteEv]

theorem c8_witness :
    (telemetryCycle { saveConfigured := true, connection := ConnSlot.pyNone, scanTime := 4 }
        (("9.1\t9.2\t\n").toList) SendOutcome.ok).1.countP isFileWriteEv = 1
    ∧ (telemetryCycle { saveConfigured := true, connection := ConnSlot.pyNone, scanTime := 4 }
        (("9.1\t9.2\t\n").toList) SendOutcome.ok).1.get? 2
        = some (Event.fileWrite
            (joinWith [','] (parseTemperatures (("9.1\t9.2\t\n").toList)) ++ ['\n']))
    ∧ (telemetryCycle { saveConfigured := true, connection := ConnSlot.pyNone, scanTime := 4 }
        (("9.1\t9.2\t\n").toList) SendOutcome.ok).1.get? 3 = some Event.fileFlush :=
  c8_file_sink_exactly_one_line _ _ _ rfl

/-- C9: startup validation (lines 214-223) exits with code 1 — before any
daemon state is created — exactly when the discovery toggle is off and no
explicit topic is given; providing either the discovery toggle or an explicit
topic passes validation and constructs the daemon. -/
theorem c9_startup_validation :
    startupValidate false none = StartupResult.exited 1
    ∧ (∀ t : Option Str, startupValidate true t = StartupResult.daemonCreated none)
    ∧ (∀ s : Str, startupValidate false (some s) = StartupResult.daemonCreated (some s))
    ∧ (∀ (d : Bool) (t : Option Str) (c : Nat),
        startupValidate d t = StartupResult.exited c → c = 1 ∧ d = false ∧ t = none) := by
  refine ⟨rfl, fun t => rfl, fun s => rfl, ?_⟩
  intro d t c h
  cases d with
  | true => simp [startupValidate] at h
  | false =>
    cases t with
    | none =>
      simp [startupValidate] at h
      exact ⟨h.symm, rfl, rfl⟩
    | some s => simp [startupValidate] at h

theorem c9_witness :
    1 = 1 ∧ false = false ∧ (none : Option Str) = none :=
  c9_startup_validation.2.2.2 false none 1 rfl
